import Mathlib

/-!
Shallow embedding of src/fastapi-backend/main.py: the JWT token codec
(create_access_token / verify_token), the in-memory entity store
(tasks_db, users_db, the two id counters) and the store operations
(create_task, get_task, update_task, delete_task, complete_task,
create_user, login, get_tasks).

Time is modelled as a Nat of seconds (datetime.utcnow).  Python integers
are unbounded, so ids and timestamps are Nat with no wraparound.  A JWT
is modelled symbolically: jwt.encode produces a signed payload tagged
with the signing key; jwt.decode checks that the key matches, that the
token is well formed, and that the exp claim has not passed (PyJWT
raises ExpiredSignatureError when exp <= now, with zero leeway).
-/

namespace App

/-- Configuration constant: minutes until a token expires
(ACCESS_TOKEN_EXPIRE_MINUTES = 30 in main.py). -/
def ACCESS_TOKEN_EXPIRE_MINUTES : Nat := 30

/-- Process-wide signing secret (SECRET_KEY in main.py; the default
value used when the environment variable is unset). -/
def SECRET_KEY : String := "your-secret-key-change-in-production"

/-- Claims carried by a token: the sub claim (absent when the encoded
dict had no "sub" key) and the exp claim in seconds. -/
structure JwtPayload where
  sub : Option String
  exp : Nat
  deriving DecidableEq, Repr

/-- Symbolic JWT: either a payload signed with some key, or a malformed
string that is not a JWT at all. -/
inductive Jwt where
  | signed (payload : JwtPayload) (key : String)
  | malformed (raw : String)
  deriving DecidableEq, Repr

/-- Errors raised by jwt.decode; every one is a subclass of
jwt.PyJWTError. -/
inductive JwtError where
  | decodeError
  | invalidSignature
  | expiredSignature
  deriving DecidableEq, Repr

/-- Model of jwt.encode(payload, key, algorithm=HS256). -/
def jwtEncode (payload : JwtPayload) (key : String) : Jwt :=
  Jwt.signed payload key

/-- Model of jwt.decode(token, key, algorithms=[HS256]) evaluated when
the clock reads now: rejects malformed input, a signature made with a
different key, and an exp claim with exp <= now. -/
def jwtDecode (token : Jwt) (key : String) (now : Nat) :
    Except JwtError JwtPayload :=
  match token with
  | Jwt.malformed _ => Except.error JwtError.decodeError
  | Jwt.signed p k =>
    if k = key then
      if p.exp ≤ now then Except.error JwtError.expiredSignature
      else Except.ok p
    else Except.error JwtError.invalidSignature

/-- Errors surfaced by the handlers as HTTPException, by status code and
detail string. -/
inductive Err where
  | invalidToken
  | notFound
  | usernameExists
  | invalidCredentials
  | userNotFound
  deriving DecidableEq, Repr

/-- Model of create_access_token in main.py, applied to the dict
data = sub ↦ subject that every caller passes: stamps
exp = now + 30 minutes and signs with the process-wide key. -/
def create_access_token (sub : Option String) (now : Nat) : Jwt :=
  jwtEncode { sub := sub, exp := now + ACCESS_TOKEN_EXPIRE_MINUTES * 60 }
    SECRET_KEY

/-- Model of verify_token in main.py: decodes the presented credential
with the process-wide key; any jwt.PyJWTError and an absent sub claim
alike become the uniform 401 Invalid token error.  The Python code
checks only payload.get(\"sub\") is None, so an empty-string subject is
accepted. -/
def verify_token (cred : Jwt) (now : Nat) : Except Err String :=
  match jwtDecode cred SECRET_KEY now with
  | Except.error _ => Except.error Err.invalidToken
  | Except.ok payload =>
    match payload.sub with
    | none => Except.error Err.invalidToken
    | some username => Except.ok username

/-- Request body of POST /api/v1/tasks (pydantic model TaskCreate). -/
structure TaskCreate where
  title : String
  description : Option String
  priority : String
  deriving DecidableEq, Repr

/-- Stored task record (pydantic model Task). -/
structure Task where
  id : Nat
  title : String
  description : Option String
  priority : String
  completed : Bool
  created_at : Nat
  deriving DecidableEq, Repr

/-- Request body of POST /api/v1/users (pydantic model UserCreate). -/
structure UserCreate where
  username : String
  email : String
  password : String
  deriving DecidableEq, Repr

/-- Stored user record (pydantic model User); the password from
UserCreate is never stored. -/
structure User where
  id : Nat
  username : String
  email : String
  created_at : Nat
  deriving DecidableEq, Repr

/-- The module-level mutable state of main.py: tasks_db, users_db and
the two id counters. -/
structure Store where
  tasks_db : List Task
  users_db : List User
  task_id_counter : Nat
  user_id_counter : Nat
  deriving DecidableEq, Repr

/-- State of the process at startup: empty collections, both counters
at 1. -/
def initStore : Store :=
  { tasks_db := [], users_db := [], task_id_counter := 1,
    user_id_counter := 1 }

/-- Model of create_task: builds the Task from the request body with
id = task_id_counter and completed defaulted to false, appends it to
tasks_db and increments the counter. -/
def create_task (task : TaskCreate) (now : Nat) (s : Store) :
    Task × Store :=
  let new_task : Task :=
    { id := s.task_id_counter, title := task.title,
      description := task.description, priority := task.priority,
      completed := false, created_at := now }
  (new_task,
   { s with tasks_db := s.tasks_db ++ [new_task],
            task_id_counter := s.task_id_counter + 1 })

/-- Model of get_tasks (the store part, after the auth guard): returns
all of tasks_db. -/
def get_tasks (s : Store) : List Task × Store :=
  (s.tasks_db, s)

/-- Model of get_task: linear first-match lookup by id
(next(t for t in tasks_db if t.id == task_id)); 404 when absent. -/
def get_task (task_id : Nat) (s : Store) : Except Err Task × Store :=
  match s.tasks_db.find? (fun t => t.id == task_id) with
  | none => (Except.error Err.notFound, s)
  | some t => (Except.ok t, s)

/-- Mutation of the first list element satisfying p, in place: returns
the mutated element together with the list holding it, or none when no
element matches.  This is how Python's next(...) followed by attribute
assignment acts on tasks_db. -/
def updateFirstTask (p : Task → Bool) (f : Task → Task) :
    List Task → Option (Task × List Task)
  | [] => none
  | t :: ts =>
    if p t then some (f t, f t :: ts)
    else
      match updateFirstTask p f ts with
      | none => none
      | some (t', ts') => some (t', t :: ts')

/-- Field mutation performed by update_task: title, description and
priority are overwritten from the request body; id, completed and
created_at are not touched. -/
def applyTaskUpdate (task_update : TaskCreate) (t : Task) : Task :=
  { t with title := task_update.title,
           description := task_update.description,
           priority := task_update.priority }

/-- Model of update_task: finds the first task with the given id, 404
when absent, otherwise overwrites title/description/priority in place
and returns the mutated task. -/
def update_task (task_id : Nat) (task_update : TaskCreate) (s : Store) :
    Except Err Task × Store :=
  match updateFirstTask (fun t => t.id == task_id)
      (applyTaskUpdate task_update) s.tasks_db with
  | none => (Except.error Err.notFound, s)
  | some (t', ts') => (Except.ok t', { s with tasks_db := ts' })

/-- Model of delete_task: rebinds tasks_db to the list of tasks whose
id differs, and reports success whether or not anything matched. -/
def delete_task (task_id : Nat) (s : Store) : String × Store :=
  ("Task deleted successfully",
   { s with tasks_db := s.tasks_db.filter (fun t => !(t.id == task_id)) })

/-- Model of complete_task: finds the first task with the given id, 404
when absent, otherwise sets completed := true in place. -/
def complete_task (task_id : Nat) (s : Store) : Except Err Task × Store :=
  match updateFirstTask (fun t => t.id == task_id)
      (fun t => { t with completed := true }) s.tasks_db with
  | none => (Except.error Err.notFound, s)
  | some (t', ts') => (Except.ok t', { s with tasks_db := ts' })

/-- Model of create_user: 400 when any stored user already has the
requested username (store unchanged), otherwise builds the User with
id = user_id_counter, appends it and increments the counter. -/
def create_user (user : UserCreate) (now : Nat) (s : Store) :
    Except Err User × Store :=
  if s.users_db.any (fun u => u.username == user.username) then
    (Except.error Err.usernameExists, s)
  else
    let new_user : User :=
      { id := s.user_id_counter, username := user.username,
        email := user.email, created_at := now }
    (Except.ok new_user,
     { s with users_db := s.users_db ++ [new_user],
              user_id_counter := s.user_id_counter + 1 })

/-- Model of login: looks the username up in users_db, 401 when absent;
the password argument is received but never inspected.  On success a
fresh token for the username is issued. -/
def login (username _password : String) (now : Nat) (s : Store) :
    Except Err Jwt × Store :=
  match s.users_db.find? (fun u => u.username == username) with
  | none => (Except.error Err.invalidCredentials, s)
  | some _ => (Except.ok (create_access_token (some username) now), s)

/-- Model of the get_tasks handler including its auth dependency: the
bearer credential is resolved by verify_token and the store is only
read on success.  The user store is never consulted. -/
def get_tasks_handler (cred : Jwt) (now : Nat) (s : Store) :
    Except Err (List Task) :=
  match verify_token cred now with
  | Except.error e => Except.error e
  | Except.ok _username => Except.ok (get_tasks s).1

/-- A store operation, for reasoning about arbitrary interleavings of
handler calls against the shared in-memory state. -/
inductive StoreOp where
  | opCreateTask (fields : TaskCreate) (now : Nat)
  | opListTasks
  | opGetTask (id : Nat)
  | opUpdateTask (id : Nat) (fields : TaskCreate)
  | opDeleteTask (id : Nat)
  | opCompleteTask (id : Nat)
  | opCreateUser (fields : UserCreate) (now : Nat)
  | opListUsers
  deriving DecidableEq, Repr

/-- Effect of one store operation on the shared state (the response is
dropped). -/
def applyOp (op : StoreOp) (s : Store) : Store :=
  match op with
  | StoreOp.opCreateTask fields now => (create_task fields now s).2
  | StoreOp.opListTasks => (get_tasks s).2
  | StoreOp.opGetTask id => (get_task id s).2
  | StoreOp.opUpdateTask id fields => (update_task id fields s).2
  | StoreOp.opDeleteTask id => (delete_task id s).2
  | StoreOp.opCompleteTask id => (complete_task id s).2
  | StoreOp.opCreateUser fields now => (create_user fields now s).2
  | StoreOp.opListUsers => s

/-- Task ids handed out by the opCreateTask operations of a run, in
order of execution. -/
def taskIdsAssigned : List StoreOp → Store → List Nat
  | [], _ => []
  | op :: ops, s =>
    match op with
    | StoreOp.opCreateTask fields now =>
      (create_task fields now s).1.id :: taskIdsAssigned ops (applyOp op s)
    | _ => taskIdsAssigned ops (applyOp op s)

/-- User ids handed out by the successful opCreateUser operations of a
run (a Conflict assigns no id), in order of execution. -/
def userIdsAssigned : List StoreOp → Store → List Nat
  | [], _ => []
  | op :: ops, s =>
    match op with
    | StoreOp.opCreateUser fields now =>
      match (create_user fields now s).1 with
      | Except.ok u => u.id :: userIdsAssigned ops (applyOp op s)
      | Except.error _ => userIdsAssigned ops (applyOp op s)
    | _ => userIdsAssigned ops (applyOp op s)

/-- The stored user a successful create_user appends, spelled out for
reuse in statements. -/
def mkUser (fields : UserCreate) (now : Nat) (s : Store) : User :=
  { id := s.user_id_counter, username := fields.username,
    email := fields.email, created_at := now }

/-- Test for the operations that create a task. -/
def isCreateTaskOp : StoreOp → Bool
  | StoreOp.opCreateTask _ _ => true
  | _ => false

end App

namespace App

/-- Helper characterisation of verify_token: it succeeds with subject u
exactly when the credential is signed with the process key, carries
sub = some u, and its exp claim lies strictly in the future. -/
theorem verify_token_ok_iff (tok : Jwt) (now : Nat) (u : String) :
    verify_token tok now = Except.ok u ↔
      ∃ e, tok = Jwt.signed { sub := some u, exp := e } SECRET_KEY ∧
        now < e := by
  cases tok with
  | malformed raw => simp [verify_token, jwtDecode]
  | signed p k =>
    obtain ⟨sub, exp⟩ := p
    by_cases hk : k = SECRET_KEY
    · subst hk
      by_cases hexp : exp ≤ now
      · simp only [verify_token, jwtDecode, if_pos rfl, if_pos hexp]
        constructor
        · intro h; cases h
        · rintro ⟨e, he, hlt⟩
          cases he
          omega
      · cases sub with
        | none =>
          simp only [verify_token, jwtDecode, if_pos rfl, if_neg hexp]
          constructor
          · intro h; cases h
          · rintro ⟨e, he, hlt⟩
            cases he
        | some v =>
          simp only [verify_token, jwtDecode, if_pos rfl, if_neg hexp]
          constructor
          · intro h
            cases h
            exact ⟨exp, rfl, by omega⟩
          · rintro ⟨e, he, hlt⟩
            injection he with hpay hkey
            injection hpay with hsub hexp2
            injection hsub with hv
            subst hv
            rfl
    · simp only [verify_token, jwtDecode, if_neg hk]
      constructor
      · intro h; cases h
      · rintro ⟨e, he, hlt⟩
        injection he with hpay hkey
        exact absurd hkey hk

/-- Helper: every failure of verify_token is the uniform invalid-token
error. -/
theorem verify_token_error_uniform (tok : Jwt) (now : Nat) (e : Err)
    (h : verify_token tok now = Except.error e) : e = Err.invalidToken := by
  cases tok with
  | malformed raw =>
    simp only [verify_token, jwtDecode] at h
    injection h with h1
    exact h1.symm
  | signed p k =>
    obtain ⟨sub, exp⟩ := p
    by_cases hk : k = SECRET_KEY
    · subst hk
      by_cases hexp : exp ≤ now
      · simp only [verify_token, jwtDecode, if_pos rfl, if_pos hexp] at h
        injection h with h1
        exact h1.symm
      · cases sub with
        | none =>
          simp only [verify_token, jwtDecode, if_pos rfl, if_neg hexp] at h
          injection h with h1
          exact h1.symm
        | some v =>
          simp only [verify_token, jwtDecode, if_pos rfl, if_neg hexp] at h
          cases h
    · simp only [verify_token, jwtDecode, if_neg hk] at h
      injection h with h1
      exact h1.symm

end App

namespace App

/-- C1 (counterexample): the claim requires a NON-EMPTY subject claim
for verification to succeed, but verify_token only checks that the sub
claim is not None, so a well-signed unexpired token whose subject is
the empty string verifies successfully and yields the empty subject. -/
theorem C1_counterexample :
    verify_token
        (jwtEncode { sub := some "", exp := 1 } SECRET_KEY) 0
      = Except.ok "" := by
  rfl

/-- C1 (amended): Verify(t) succeeds and returns the subject iff t's
signature verifies under the process-wide secret key, t has not expired
at the current time, and t carries a subject claim (present, possibly
empty); in every other case Verify fails with the uniform invalid-token
auth error. -/
theorem C1_verify_characterisation (tok : Jwt) (now : Nat) :
    (∀ u, verify_token tok now = Except.ok u ↔
      ∃ e, tok = Jwt.signed { sub := some u, exp := e } SECRET_KEY ∧
        now < e) ∧
    (∀ e, verify_token tok now = Except.error e → e = Err.invalidToken) :=
  ⟨fun u => verify_token_ok_iff tok now u,
   fun e h => verify_token_error_uniform tok now e h⟩

/-- C1 witness: instantiates the characterisation on a concrete signed
token, in both directions, and on a concrete expired token. -/
theorem C1_verify_characterisation_witness :
    verify_token (Jwt.signed { sub := some "alice", exp := 10 } SECRET_KEY)
        3 = Except.ok "alice" ∧
    Err.invalidToken = Err.invalidToken :=
  ⟨((C1_verify_characterisation
      (Jwt.signed { sub := some "alice", exp := 10 } SECRET_KEY) 3).1
        "alice").mpr ⟨10, rfl, by decide⟩,
   (C1_verify_characterisation
      (Jwt.signed { sub := some "alice", exp := 10 } SECRET_KEY) 20).2
        Err.invalidToken rfl⟩

/-- Helper: a token signed with the right key whose exp claim has
passed is rejected with the uniform invalid-token error. -/
theorem verify_token_expired (p : JwtPayload) (now : Nat)
    (h : p.exp ≤ now) :
    verify_token (Jwt.signed p SECRET_KEY) now
      = Except.error Err.invalidToken := by
  simp only [verify_token, jwtDecode, if_true]
  rw [if_pos h]

/-- C2: token round-trip — for any non-empty subject u, verifying the
token immediately after it is issued for u (same key, same clock)
yields u. -/
theorem C2_round_trip (u : String) (h : u ≠ "") (now : Nat) :
    verify_token (create_access_token (some u) now) now = Except.ok u :=
  (verify_token_ok_iff (create_access_token (some u) now) now u).mpr
    ⟨now + 1800, rfl, by omega⟩

/-- C2 witness: the round trip evaluated for subject alice at time 0. -/
theorem C2_round_trip_witness :
    verify_token (create_access_token (some "alice") 0) 0
      = Except.ok "alice" :=
  C2_round_trip "alice" (by decide) 0

/-- C3: a token issued for u at time t0 carries exp = t0 + 30 minutes;
it verifies at t0 + 29 minutes and is rejected (with the uniform
invalid-token error) at t0 + 31 minutes. -/
theorem C3_expiry_window (u : String) (t0 : Nat) :
    create_access_token (some u) t0
        = Jwt.signed { sub := some u, exp := t0 + 30 * 60 } SECRET_KEY ∧
    verify_token (create_access_token (some u) t0) (t0 + 29 * 60)
        = Except.ok u ∧
    verify_token (create_access_token (some u) t0) (t0 + 31 * 60)
        = Except.error Err.invalidToken := by
  refine ⟨rfl, ?_, ?_⟩
  · exact (verify_token_ok_iff (create_access_token (some u) t0)
      (t0 + 29 * 60) u).mpr ⟨t0 + 30 * 60, rfl, by omega⟩
  · exact verify_token_expired { sub := some u, exp := t0 + 30 * 60 }
      (t0 + 31 * 60) (by show t0 + 30 * 60 ≤ t0 + 31 * 60; omega)

end App

namespace App

/-- Helper: get_task never changes the store. -/
theorem get_task_snd (id : Nat) (s : Store) : (get_task id s).2 = s := by
  cases hf : s.tasks_db.find? (fun t => t.id == id) <;>
    simp [get_task, hf]

/-- Helper: update_task touches only tasks_db; users and both counters
are preserved, whether it succeeds or not. -/
theorem update_task_frame (id : Nat) (fields : TaskCreate) (s : Store) :
    (update_task id fields s).2.users_db = s.users_db ∧
    (update_task id fields s).2.task_id_counter = s.task_id_counter ∧
    (update_task id fields s).2.user_id_counter = s.user_id_counter := by
  cases hf : updateFirstTask (fun t => t.id == id)
      (applyTaskUpdate fields) s.tasks_db with
  | none => simp [update_task, hf]
  | some p =>
    obtain ⟨t', ts'⟩ := p
    simp [update_task, hf]

/-- Helper: complete_task touches only tasks_db; users and both
counters are preserved, whether it succeeds or not. -/
theorem complete_task_frame (id : Nat) (s : Store) :
    (complete_task id s).2.users_db = s.users_db ∧
    (complete_task id s).2.task_id_counter = s.task_id_counter ∧
    (complete_task id s).2.user_id_counter = s.user_id_counter := by
  cases hf : updateFirstTask (fun t => t.id == id)
      (fun t => { t with completed := true }) s.tasks_db with
  | none => simp [complete_task, hf]
  | some p =>
    obtain ⟨t', ts'⟩ := p
    simp [complete_task, hf]

/-- Helper: the task id counter never decreases across any store
operation, and only opCreateTask changes it. -/
theorem applyOp_task_counter_mono (op : StoreOp) (s : Store) :
    s.task_id_counter ≤ (applyOp op s).task_id_counter := by
  cases op with
  | opCreateTask fields now => simp [applyOp, create_task]
  | opListTasks => simp [applyOp, get_tasks]
  | opGetTask id => simp [applyOp, get_task_snd]
  | opUpdateTask id fields =>
    simp [applyOp, (update_task_frame id fields s).2.1]
  | opDeleteTask id => simp [applyOp, delete_task]
  | opCompleteTask id => simp [applyOp, (complete_task_frame id s).2.1]
  | opCreateUser fields now =>
    by_cases hc : s.users_db.any (fun u => u.username == fields.username) <;>
      simp [applyOp, create_user, hc]
  | opListUsers => simp [applyOp]

/-- Helper: the user id counter never decreases across any store
operation. -/
theorem applyOp_user_counter_mono (op : StoreOp) (s : Store) :
    s.user_id_counter ≤ (applyOp op s).user_id_counter := by
  cases op with
  | opCreateTask fields now => simp [applyOp, create_task]
  | opListTasks => simp [applyOp, get_tasks]
  | opGetTask id => simp [applyOp, get_task_snd]
  | opUpdateTask id fields =>
    simp [applyOp, (update_task_frame id fields s).2.2]
  | opDeleteTask id => simp [applyOp, delete_task]
  | opCompleteTask id => simp [applyOp, (complete_task_frame id s).2.2]
  | opCreateUser fields now =>
    by_cases hc : s.users_db.any (fun u => u.username == fields.username) <;>
      simp [applyOp, create_user, hc]
  | opListUsers => simp [applyOp]

/-- Helper: every task id a run assigns is at least the task id counter
of the store the run starts from. -/
theorem taskIdsAssigned_lower (ops : List StoreOp) (s : Store) :
    ∀ i ∈ taskIdsAssigned ops s, s.task_id_counter ≤ i := by
  induction ops generalizing s with
  | nil => simp [taskIdsAssigned]
  | cons op ops ih =>
    intro i hi
    cases op with
    | opCreateTask fields now =>
      simp only [taskIdsAssigned, List.mem_cons] at hi
      rcases hi with hi | hi
      · simp [create_task, hi]
      · exact le_trans
          (applyOp_task_counter_mono (StoreOp.opCreateTask fields now) s)
          (ih (applyOp (StoreOp.opCreateTask fields now) s) i hi)
    | opListTasks =>
      exact le_trans (applyOp_task_counter_mono StoreOp.opListTasks s)
        (ih _ i hi)
    | opGetTask id =>
      exact le_trans (applyOp_task_counter_mono (StoreOp.opGetTask id) s)
        (ih _ i hi)
    | opUpdateTask id fields =>
      exact le_trans
        (applyOp_task_counter_mono (StoreOp.opUpdateTask id fields) s)
        (ih _ i hi)
    | opDeleteTask id =>
      exact le_trans (applyOp_task_counter_mono (StoreOp.opDeleteTask id) s)
        (ih _ i hi)
    | opCompleteTask id =>
      exact le_trans
        (applyOp_task_counter_mono (StoreOp.opCompleteTask id) s)
        (ih _ i hi)
    | opCreateUser fields now =>
      exact le_trans
        (applyOp_task_counter_mono (StoreOp.opCreateUser fields now) s)
        (ih _ i hi)
    | opListUsers =>
      exact le_trans (applyOp_task_counter_mono StoreOp.opListUsers s)
        (ih _ i hi)

end App

namespace App

/-- Helper: the task ids assigned along any run are strictly
increasing. -/
theorem taskIdsAssigned_sorted (ops : List StoreOp) (s : Store) :
    (taskIdsAssigned ops s).Sorted (· < ·) := by
  induction ops generalizing s with
  | nil => simp [taskIdsAssigned]
  | cons op ops ih =>
    cases op
    case opCreateTask fields now =>
      simp only [taskIdsAssigned]
      refine List.sorted_cons.mpr ⟨fun b hb => ?_, ih _⟩
      have hlb := taskIdsAssigned_lower ops
        (applyOp (StoreOp.opCreateTask fields now) s) b hb
      have hc : (applyOp (StoreOp.opCreateTask fields now) s).task_id_counter
          = s.task_id_counter + 1 := rfl
      have hid : (create_task fields now s).1.id = s.task_id_counter := rfl
      omega
    all_goals simpa only [taskIdsAssigned] using ih _

/-- Helper: when the username is taken, create_user reports the
conflict and returns the store unchanged. -/
theorem create_user_conflict (fields : UserCreate) (now : Nat) (s : Store)
    (hc : s.users_db.any (fun u => u.username == fields.username) = true) :
    create_user fields now s = (Except.error Err.usernameExists, s) := by
  simp [create_user, hc]

/-- Helper: when the username is free, create_user appends the new user
and bumps the counter. -/
theorem create_user_success (fields : UserCreate) (now : Nat) (s : Store)
    (hc : s.users_db.any (fun u => u.username == fields.username) = false) :
    create_user fields now s =
      (Except.ok (mkUser fields now s),
       { s with users_db := s.users_db ++ [mkUser fields now s],
                user_id_counter := s.user_id_counter + 1 }) := by
  simp [create_user, hc, mkUser]

/-- Helper: every user id a run assigns is at least the user id counter
of the store the run starts from. -/
theorem userIdsAssigned_lower (ops : List StoreOp) (s : Store) :
    ∀ i ∈ userIdsAssigned ops s, s.user_id_counter ≤ i := by
  induction ops generalizing s with
  | nil => simp [userIdsAssigned]
  | cons op ops ih =>
    intro i hi
    cases op
    case opCreateUser fields now =>
      cases hc : s.users_db.any (fun u => u.username == fields.username) with
      | true =>
        simp only [userIdsAssigned, applyOp,
          create_user_conflict fields now s hc] at hi
        exact ih s i hi
      | false =>
        simp only [userIdsAssigned, applyOp,
          create_user_success fields now s hc, List.mem_cons] at hi
        rcases hi with hi | hi
        · exact le_of_eq hi.symm
        · exact le_trans (Nat.le_succ s.user_id_counter) (ih _ i hi)
    all_goals
      exact le_trans (applyOp_user_counter_mono _ s)
        (ih _ i (by simpa only [userIdsAssigned] using hi))

/-- Helper: the user ids assigned along any run are strictly
increasing. -/
theorem userIdsAssigned_sorted (ops : List StoreOp) (s : Store) :
    (userIdsAssigned ops s).Sorted (· < ·) := by
  induction ops generalizing s with
  | nil => simp [userIdsAssigned]
  | cons op ops ih =>
    cases op
    case opCreateUser fields now =>
      cases hc : s.users_db.any (fun u => u.username == fields.username) with
      | true =>
        simpa only [userIdsAssigned, applyOp,
          create_user_conflict fields now s hc] using ih s
      | false =>
        simp only [userIdsAssigned, applyOp,
          create_user_success fields now s hc]
        refine List.sorted_cons.mpr ⟨fun b hb => ?_, ih _⟩
        have hlb := userIdsAssigned_lower ops _ b hb
        exact lt_of_lt_of_le (Nat.lt_succ_self s.user_id_counter) hlb
    all_goals simpa only [userIdsAssigned] using ih _

/-- Helper: a run assigns exactly one task id per opCreateTask it
contains. -/
theorem taskIdsAssigned_length (ops : List StoreOp) (s : Store) :
    (taskIdsAssigned ops s).length = ops.countP isCreateTaskOp := by
  induction ops generalizing s with
  | nil => simp [taskIdsAssigned]
  | cons op ops ih =>
    cases op
    all_goals
      simp [taskIdsAssigned, List.countP_cons, isCreateTaskOp, ih]

/-- C4: any interleaving of store operations hands out strictly
increasing, pairwise distinct task ids (one per create-task call, so N
creations yield N fresh ids, none ever reused), and likewise strictly
increasing, pairwise distinct user ids for the user creations that
succeed. -/
theorem C4_id_monotonicity (ops : List StoreOp) (s : Store) :
    (taskIdsAssigned ops s).Sorted (· < ·) ∧
    (taskIdsAssigned ops s).Pairwise (· ≠ ·) ∧
    (taskIdsAssigned ops s).length = ops.countP isCreateTaskOp ∧
    (userIdsAssigned ops s).Sorted (· < ·) ∧
    (userIdsAssigned ops s).Pairwise (· ≠ ·) :=
  ⟨taskIdsAssigned_sorted ops s,
   (taskIdsAssigned_sorted ops s).imp Nat.ne_of_lt,
   taskIdsAssigned_length ops s,
   userIdsAssigned_sorted ops s,
   (userIdsAssigned_sorted ops s).imp Nat.ne_of_lt⟩

end App

namespace App

/-- Helper: the duplicate-username check of create_user agrees with
existence of a stored user carrying that username. -/
theorem create_user_check_iff (fields : UserCreate) (s : Store) :
    (s.users_db.any (fun u => u.username == fields.username) = true) ↔
      ∃ u ∈ s.users_db, u.username = fields.username := by
  simp [List.any_eq_true]

/-- C5: CreateUser fails with Conflict iff the requested username
already belongs to some stored user, and then the whole store is
unchanged; otherwise it returns the user built from the request with
id = user_id_counter and created_at = now, appends it, and bumps the
user id counter. -/
theorem C5_create_user (fields : UserCreate) (now : Nat) (s : Store) :
    ((create_user fields now s).1 = Except.error Err.usernameExists ↔
      ∃ u ∈ s.users_db, u.username = fields.username) ∧
    ((∃ u ∈ s.users_db, u.username = fields.username) →
      (create_user fields now s).2 = s) ∧
    ((∀ u ∈ s.users_db, u.username ≠ fields.username) →
      (create_user fields now s).1 = Except.ok (mkUser fields now s) ∧
      (create_user fields now s).2 =
        { s with users_db := s.users_db ++ [mkUser fields now s],
                 user_id_counter := s.user_id_counter + 1 }) := by
  cases hc : s.users_db.any (fun u => u.username == fields.username) with
  | true =>
    rw [create_user_conflict fields now s hc]
    refine ⟨⟨fun _ => (create_user_check_iff fields s).mp hc, fun _ => rfl⟩,
      fun _ => rfl, fun hall => ?_⟩
    obtain ⟨u, hu, he⟩ := (create_user_check_iff fields s).mp hc
    exact absurd he (hall u hu)
  | false =>
    rw [create_user_success fields now s hc]
    refine ⟨⟨fun h => absurd h (by simp), fun hex => ?_⟩,
      fun hex => ?_, fun _ => ⟨rfl, rfl⟩⟩
    · exact absurd ((create_user_check_iff fields s).mpr hex)
        (by simp [hc])
    · exact absurd ((create_user_check_iff fields s).mpr hex)
        (by simp [hc])

/-- C5 witness: creating alice in the empty store succeeds and yields
id 1; creating alice again in the resulting store reports the conflict
and leaves that store unchanged. -/
theorem C5_create_user_witness :
    (create_user
        { username := "alice", email := "a@example.com", password := "pw" }
        5 initStore).1
      = Except.ok (mkUser
          { username := "alice", email := "a@example.com", password := "pw" }
          5 initStore) ∧
    (create_user
        { username := "alice", email := "a@example.com", password := "pw" }
        6
        { tasks_db := [],
          users_db := [{ id := 1, username := "alice",
                         email := "a@example.com", created_at := 5 }],
          task_id_counter := 1, user_id_counter := 2 }).2
      = { tasks_db := [],
          users_db := [{ id := 1, username := "alice",
                         email := "a@example.com", created_at := 5 }],
          task_id_counter := 1, user_id_counter := 2 } :=
  ⟨((C5_create_user
      { username := "alice", email := "a@example.com", password := "pw" }
      5 initStore).2.2 (by simp [initStore])).1,
   (C5_create_user
      { username := "alice", email := "a@example.com", password := "pw" }
      6
      { tasks_db := [],
        users_db := [{ id := 1, username := "alice",
                       email := "a@example.com", created_at := 5 }],
        task_id_counter := 1, user_id_counter := 2 }).2.1
      ⟨{ id := 1, username := "alice", email := "a@example.com",
         created_at := 5 }, by simp, rfl⟩⟩

end App

namespace App

/-- Helper: when no element matches, the in-place first-match update
finds nothing. -/
theorem updateFirstTask_eq_none_of (p : Task → Bool) (f : Task → Task)
    (l : List Task) (h : ∀ x ∈ l, p x = false) :
    updateFirstTask p f l = none := by
  induction l with
  | nil => rfl
  | cons t ts ih =>
    have hpt := h t (List.mem_cons_self t ts)
    simp only [updateFirstTask, hpt, Bool.false_eq_true, if_false]
    rw [ih (fun x hx => h x (List.mem_cons_of_mem t hx))]

/-- Helper: when the in-place first-match update finds nothing, no
element matches. -/
theorem forall_not_of_updateFirstTask_eq_none (p : Task → Bool)
    (f : Task → Task) (l : List Task)
    (h : updateFirstTask p f l = none) : ∀ x ∈ l, p x = false := by
  induction l with
  | nil => simp
  | cons t ts ih =>
    cases hpt : p t with
    | true => simp [updateFirstTask, hpt] at h
    | false =>
      cases hr : updateFirstTask p f ts with
      | none =>
        intro x hx
        rcases List.mem_cons.mp hx with hx | hx
        · rw [hx]; exact hpt
        · exact ih hr x hx
      | some pr =>
        obtain ⟨t', ts'⟩ := pr
        simp [updateFirstTask, hpt, hr] at h

/-- Helper: a successful in-place first-match update splits the list
around the first matching element, which alone is replaced by its
image. -/
theorem updateFirstTask_eq_some (p : Task → Bool) (f : Task → Task)
    (l : List Task) (t' : Task) (l' : List Task)
    (h : updateFirstTask p f l = some (t', l')) :
    ∃ t l₁ l₂, l = l₁ ++ t :: l₂ ∧ (∀ x ∈ l₁, p x = false) ∧
      p t = true ∧ t' = f t ∧ l' = l₁ ++ f t :: l₂ := by
  induction l generalizing t' l' with
  | nil => simp [updateFirstTask] at h
  | cons t ts ih =>
    cases hpt : p t with
    | true =>
      simp only [updateFirstTask, hpt, if_true] at h
      obtain ⟨ht', hl'⟩ := Prod.mk.injEq .. ▸ (Option.some.injEq .. ▸ h)
      exact ⟨t, [], ts, by simp, by simp, hpt, ht'.symm, by simp [hl'.symm]⟩
    | false =>
      cases hr : updateFirstTask p f ts with
      | none => simp [updateFirstTask, hpt, hr] at h
      | some pr =>
        obtain ⟨t'', ts''⟩ := pr
        simp only [updateFirstTask, hpt, Bool.false_eq_true, if_false, hr,
          Option.some.injEq, Prod.mk.injEq] at h
        obtain ⟨ht', hl'⟩ := h
        obtain ⟨u, l₁, l₂, hdec, hl₁, hpu, ht'', hts''⟩ := ih t'' ts'' hr
        refine ⟨u, t :: l₁, l₂, by simp [hdec], ?_, hpu, ?_, ?_⟩
        · intro x hx
          rcases List.mem_cons.mp hx with hx | hx
          · rw [hx]; exact hpt
          · exact hl₁ x hx
        · rw [← ht', ht'']
        · rw [← hl', hts'']; simp

end App

namespace App

/-- C6: for an id absent from the store, UpdateTask fails with NotFound
and leaves the store unchanged; for a present id it splits tasks_db
around the first task carrying that id, replaces exactly that task's
title, description and priority with the supplied fields while keeping
its id, completed flag and created_at, returns the mutated task, and
leaves every other task (and the users and counters) untouched. -/
theorem C6_update_task (task_id : Nat) (fields : TaskCreate) (s : Store) :
    ((∀ t ∈ s.tasks_db, t.id ≠ task_id) →
      (update_task task_id fields s).1 = Except.error Err.notFound ∧
      (update_task task_id fields s).2 = s) ∧
    ((∃ t ∈ s.tasks_db, t.id = task_id) →
      ∃ t l₁ l₂,
        s.tasks_db = l₁ ++ t :: l₂ ∧ t.id = task_id ∧
        (∀ x ∈ l₁, x.id ≠ task_id) ∧
        (update_task task_id fields s).1
          = Except.ok (applyTaskUpdate fields t) ∧
        (applyTaskUpdate fields t).title = fields.title ∧
        (applyTaskUpdate fields t).description = fields.description ∧
        (applyTaskUpdate fields t).priority = fields.priority ∧
        (applyTaskUpdate fields t).id = t.id ∧
        (applyTaskUpdate fields t).completed = t.completed ∧
        (applyTaskUpdate fields t).created_at = t.created_at ∧
        (update_task task_id fields s).2
          = { s with tasks_db := l₁ ++ applyTaskUpdate fields t :: l₂ }) := by
  constructor
  · intro hall
    have hn : updateFirstTask (fun t => t.id == task_id)
        (applyTaskUpdate fields) s.tasks_db = none :=
      updateFirstTask_eq_none_of _ _ _ (fun x hx => by
        rw [beq_eq_false_iff_ne]
        exact hall x hx)
    exact ⟨by simp [update_task, hn], by simp [update_task, hn]⟩
  · rintro ⟨t0, ht0, hid0⟩
    cases hr : updateFirstTask (fun t => t.id == task_id)
        (applyTaskUpdate fields) s.tasks_db with
    | none =>
      have := forall_not_of_updateFirstTask_eq_none _ _ _ hr t0 ht0
      rw [beq_eq_false_iff_ne] at this
      exact absurd hid0 this
    | some pr =>
      obtain ⟨t', ts'⟩ := pr
      obtain ⟨t, l₁, l₂, hdec, hl₁, hpt, ht', hts'⟩ :=
        updateFirstTask_eq_some _ _ _ _ _ hr
      refine ⟨t, l₁, l₂, hdec, by simpa using hpt,
        fun x hx => by simpa using hl₁ x hx, ?_, rfl, rfl, rfl, rfl, rfl,
        rfl, ?_⟩
      · simp [update_task, hr, ht']
      · simp [update_task, hr, hts']

/-- C6 witness: on a store holding only task 1, updating the absent id
2 reports NotFound and leaves the store exactly as it was. -/
theorem C6_update_task_witness :
    (update_task 2 { title := "B", description := none, priority := "high" }
      { tasks_db := [{ id := 1, title := "A", description := none,
                       priority := "medium", completed := false,
                       created_at := 7 }],
        users_db := [], task_id_counter := 2, user_id_counter := 1 }).1
      = Except.error Err.notFound ∧
    (update_task 2 { title := "B", description := none, priority := "high" }
      { tasks_db := [{ id := 1, title := "A", description := none,
                       priority := "medium", completed := false,
                       created_at := 7 }],
        users_db := [], task_id_counter := 2, user_id_counter := 1 }).2
      = { tasks_db := [{ id := 1, title := "A", description := none,
                         priority := "medium", completed := false,
                         created_at := 7 }],
          users_db := [], task_id_counter := 2, user_id_counter := 1 } :=
  (C6_update_task 2
    { title := "B", description := none, priority := "high" }
    { tasks_db := [{ id := 1, title := "A", description := none,
                     priority := "medium", completed := false,
                     created_at := 7 }],
      users_db := [], task_id_counter := 2, user_id_counter := 1 }).1
    (by decide)

end App

namespace App

/-- C7: DeleteTask always reports success, even when nothing matches;
it removes exactly the tasks carrying the given id, keeps the remaining
tasks unchanged in their original insertion order (the new tasks_db is
a sublist of the old one), touches neither users nor the counters, a
subsequent GetTask of the id fails with NotFound, and deleting again is
a no-op. -/
theorem C7_delete_task (task_id : Nat) (s : Store) :
    (delete_task task_id s).1 = "Task deleted successfully" ∧
    ((delete_task task_id s).2.tasks_db).Sublist s.tasks_db ∧
    (∀ t, t ∈ (delete_task task_id s).2.tasks_db ↔
      t ∈ s.tasks_db ∧ t.id ≠ task_id) ∧
    (delete_task task_id s).2.users_db = s.users_db ∧
    (delete_task task_id s).2.task_id_counter = s.task_id_counter ∧
    (delete_task task_id s).2.user_id_counter = s.user_id_counter ∧
    (get_task task_id (delete_task task_id s).2).1
      = Except.error Err.notFound ∧
    (delete_task task_id (delete_task task_id s).2).2
      = (delete_task task_id s).2 := by
  refine ⟨rfl, List.filter_sublist s.tasks_db, fun t => ?_, rfl, rfl, rfl,
    ?_, ?_⟩
  · simp [delete_task]
  · have hfind : ((delete_task task_id s).2.tasks_db).find?
        (fun t => t.id == task_id) = none := by
      rw [List.find?_eq_none]
      intro x hx
      simp only [delete_task, List.mem_filter, Bool.not_eq_eq_eq_not,
        Bool.not_true] at hx
      simp [hx.2]
    simp [get_task, hfind]
  · simp [delete_task, List.filter_filter]

/-- C8: Login succeeds for every existing username, whatever the
password argument is, and returns a token signed with the process key
whose subject claim is that username; it fails with the invalid
credentials error exactly when no stored user carries the username.
The result never depends on the password. -/
theorem C8_login (username password : String) (now : Nat) (s : Store) :
    ((∃ u ∈ s.users_db, u.username = username) →
      (login username password now s).1
        = Except.ok (Jwt.signed
            { sub := some username,
              exp := now + ACCESS_TOKEN_EXPIRE_MINUTES * 60 } SECRET_KEY)) ∧
    ((∀ u ∈ s.users_db, u.username ≠ username) →
      (login username password now s).1
        = Except.error Err.invalidCredentials) ∧
    (∀ other : String,
      login username password now s = login username other now s) := by
  refine ⟨?_, ?_, fun other => rfl⟩
  · rintro ⟨u, hu, he⟩
    cases hf : s.users_db.find? (fun v => v.username == username) with
    | none =>
      have := List.find?_eq_none.mp hf u hu
      simp [he] at this
    | some v => simp [login, hf, create_access_token, jwtEncode]
  · intro hall
    cases hf : s.users_db.find? (fun v => v.username == username) with
    | none => simp [login, hf]
    | some v =>
      have h1 := List.find?_some hf
      have h2 := List.mem_of_find?_eq_some hf
      rw [beq_iff_eq] at h1
      exact absurd h1 (hall v h2)

/-- C8 witness: with only alice stored, logging in as alice with an
arbitrary password yields her token, and logging in as bob fails. -/
theorem C8_login_witness :
    (login "alice" "anything" 5
      { tasks_db := [],
        users_db := [{ id := 1, username := "alice",
                       email := "a@example.com", created_at := 2 }],
        task_id_counter := 1, user_id_counter := 2 }).1
      = Except.ok (Jwt.signed
          { sub := some "alice",
            exp := 5 + ACCESS_TOKEN_EXPIRE_MINUTES * 60 } SECRET_KEY) ∧
    (login "bob" "anything" 5
      { tasks_db := [],
        users_db := [{ id := 1, username := "alice",
                       email := "a@example.com", created_at := 2 }],
        task_id_counter := 1, user_id_counter := 2 }).1
      = Except.error Err.invalidCredentials :=
  ⟨(C8_login "alice" "anything" 5
      { tasks_db := [],
        users_db := [{ id := 1, username := "alice",
                       email := "a@example.com", created_at := 2 }],
        task_id_counter := 1, user_id_counter := 2 }).1
      ⟨{ id := 1, username := "alice", email := "a@example.com",
         created_at := 2 }, by simp, rfl⟩,
   (C8_login "bob" "anything" 5
      { tasks_db := [],
        users_db := [{ id := 1, username := "alice",
                       email := "a@example.com", created_at := 2 }],
        task_id_counter := 1, user_id_counter := 2 }).2.1 (by decide)⟩

/-- C9: the auth guard never consults the user store — whenever the
presented credential verifies to some subject, the gated task-list
handler succeeds and returns the current tasks, even when no stored
user carries that subject. -/
theorem C9_auth_ignores_user_store (cred : Jwt) (now : Nat) (s : Store)
    (u : String) (hv : verify_token cred now = Except.ok u)
    (habsent : ∀ v ∈ s.users_db, v.username ≠ u) :
    get_tasks_handler cred now s = Except.ok s.tasks_db := by
  simp [get_tasks_handler, hv, get_tasks]

/-- C9 witness: a freshly issued token for the subject ghost, who was
never created as a user, is accepted by the gated task listing on the
startup store. -/
theorem C9_auth_ignores_user_store_witness :
    get_tasks_handler (create_access_token (some "ghost") 0) 0 initStore
      = Except.ok ([] : List Task) :=
  C9_auth_ignores_user_store (create_access_token (some "ghost") 0) 0
    initStore "ghost" rfl (by simp [initStore])

/-- C10: on an id no stored task carries, GetTask, UpdateTask and
CompleteTask all fail with NotFound and return the store exactly as it
was (collections and counters included). -/
theorem C10_lookup_atomicity (task_id : Nat) (fields : TaskCreate)
    (s : Store) (h : ∀ t ∈ s.tasks_db, t.id ≠ task_id) :
    (get_task task_id s).1 = Except.error Err.notFound ∧
    (get_task task_id s).2 = s ∧
    (update_task task_id fields s).1 = Except.error Err.notFound ∧
    (update_task task_id fields s).2 = s ∧
    (complete_task task_id s).1 = Except.error Err.notFound ∧
    (complete_task task_id s).2 = s := by
  have hfind : s.tasks_db.find? (fun t => t.id == task_id) = none := by
    rw [List.find?_eq_none]
    intro x hx
    simp [h x hx]
  have hn1 : updateFirstTask (fun t => t.id == task_id)
      (applyTaskUpdate fields) s.tasks_db = none :=
    updateFirstTask_eq_none_of _ _ _ (fun x hx => by
      rw [beq_eq_false_iff_ne]
      exact h x hx)
  have hn2 : updateFirstTask (fun t => t.id == task_id)
      (fun t => { t with completed := true }) s.tasks_db = none :=
    updateFirstTask_eq_none_of _ _ _ (fun x hx => by
      rw [beq_eq_false_iff_ne]
      exact h x hx)
  exact ⟨by simp [get_task, hfind], by simp [get_task, hfind],
    by simp [update_task, hn1], by simp [update_task, hn1],
    by simp [complete_task, hn2], by simp [complete_task, hn2]⟩

/-- C10 witness: the three lookups evaluated at id 1 on the empty
startup store. -/
theorem C10_lookup_atomicity_witness :
    (get_task 1 initStore).1 = Except.error Err.notFound ∧
    (get_task 1 initStore).2 = initStore ∧
    (update_task 1
      { title := "B", description := none, priority := "high" }
      initStore).1 = Except.error Err.notFound ∧
    (update_task 1
      { title := "B", description := none, priority := "high" }
      initStore).2 = initStore ∧
    (complete_task 1 initStore).1 = Except.error Err.notFound ∧
    (complete_task 1 initStore).2 = initStore :=
  C10_lookup_atomicity 1
    { title := "B", description := none, priority := "high" }
    initStore (by simp [initStore])

end App
